import Mathlib

/-!
Shallow embedding of the testgen-restify data-quality dashboard router
(`src/routers/data_quality.py`, `src/dependencies.py`, `src/schemas/*.py`).

External collaborators (the scoring engine, the database, the response
formatters) are out of scope per the specification; they are modelled as
abstract function parameters or as data supplied to the handlers, and the
handlers additionally return an explicit trace of the external calls they
issue, so that claims about which queries or engine computations run are
statable.
-/

namespace TestgenRestify

/-! ## Python string helpers

`str.lower`, `str.replace("_", " ")` and `str.strip()` as used by the
group-by normalization in `get_dashboard_breakdown` / `get_dashboard_issues`.
The replace pattern in the source is the single character `"_"`, so the
embedding replaces that character pointwise. -/

/-- Python `str.lower` (ASCII case mapping, which covers every string the
router ever lowers). -/
def pyLower (s : String) : String := String.mk (s.data.map Char.toLower)

/-- Python `str.replace(old, new)` for a single-character pattern and
single-character replacement, as in `.replace("_", " ")`. -/
def pyReplaceChar (old new : Char) (s : String) : String :=
  String.mk (s.data.map fun c => if c = old then new else c)

/-- Python `str.strip()`: drop whitespace from both ends. -/
def pyStrip (s : String) : String :=
  String.mk (((s.data.dropWhile Char.isWhitespace).reverse.dropWhile Char.isWhitespace).reverse)

/-! ## Error taxonomy

`HTTPException` instances raised by the router and its dependencies, plus the
FastAPI request-validation rejection (HTTP 422) that fires when a query
parameter fails to coerce to its annotated enum type before the handler runs. -/

inductive ApiError where
  /-- 404: unknown project or dashboard. -/
  | notFound (detail : String)
  /-- 400: raised inside a handler (invalid id format, invalid category). -/
  | badRequest (detail : String)
  /-- 422: FastAPI parameter validation failed before the handler ran
  (e.g. a `group_by` token that is not a `GroupByCategory` member). -/
  | unprocessable (param : String) (offending : String)
deriving DecidableEq, Repr

/-! ## GroupByCategory

The `str`-valued enum on lines 38-52 of `src/routers/data_quality.py`.
FastAPI coerces the `group_by` query parameter through this enum before the
handler body runs: a raw token that is not one of the 13 member values is
rejected with a 422 validation error. -/

inductive GroupByCategory where
  | column_name
  | table_name
  | dq_dimension
  | semantic_data_type
  | table_groups_name
  | data_location
  | data_source
  | source_system
  | source_process
  | business_domain
  | stakeholder_group
  | transform_level
  | data_product
deriving DecidableEq, Repr

/-- The `.value` of each enum member (identical to its name). -/
def GroupByCategory.value : GroupByCategory → String
  | .column_name => "column_name"
  | .table_name => "table_name"
  | .dq_dimension => "dq_dimension"
  | .semantic_data_type => "semantic_data_type"
  | .table_groups_name => "table_groups_name"
  | .data_location => "data_location"
  | .data_source => "data_source"
  | .source_system => "source_system"
  | .source_process => "source_process"
  | .business_domain => "business_domain"
  | .stakeholder_group => "stakeholder_group"
  | .transform_level => "transform_level"
  | .data_product => "data_product"

/-- All 13 members, in declaration order. -/
def GroupByCategory.members : List GroupByCategory :=
  [.column_name, .table_name, .dq_dimension, .semantic_data_type, .table_groups_name,
   .data_location, .data_source, .source_system, .source_process, .business_domain,
   .stakeholder_group, .transform_level, .data_product]

/-- FastAPI/pydantic coercion of a raw query-string token into the
`GroupByCategory` enum: the token must equal a member value exactly,
otherwise parameter validation fails (HTTP 422). -/
def GroupByCategory.fromValue (raw : String) : Option GroupByCategory :=
  GroupByCategory.members.find? fun c => c.value = raw

/-! ## In-handler group-by normalization

Lines 249-284 of `get_dashboard_breakdown` (duplicated verbatim on lines
316-349 of `get_dashboard_issues`). -/

/-- The backwards-compatibility alias map (`group_by_mapping`). -/
def group_by_mapping : List (String × String) :=
  [("table_group", "table_groups_name"),
   ("table group", "table_groups_name"),
   ("tablegroup", "table_groups_name")]

/-- `group_by_mapping.get(group_by_value.lower().replace("_", " ").strip(), group_by_value)`. -/
def normalized_group_by (group_by_value : String) : String :=
  match group_by_mapping.lookup (pyStrip (pyReplaceChar '_' ' ' (pyLower group_by_value))) with
  | some v => v
  | none => group_by_value

/-- The hand-maintained `valid_categories` list repeated in both handlers. -/
def valid_categories : List String :=
  ["column_name", "table_name", "dq_dimension", "semantic_data_type", "table_groups_name",
   "data_location", "data_source", "source_system", "source_process", "business_domain",
   "stakeholder_group", "transform_level", "data_product"]

/-- The group-by processing performed inside the handler body: take the
enum's `.value`, run the alias normalization, and raise the 400
`Invalid group_by parameter` error when the normalized token is not in
`valid_categories`; otherwise the normalized token is what the engine
query is issued with. -/
def handlerGroupBy (group_by : GroupByCategory) : Except ApiError String :=
  let group_by_value := group_by.value
  let n := normalized_group_by group_by_value
  if n ∈ valid_categories then .ok n
  else
    .error (.badRequest
      ("Invalid group_by parameter: '" ++ group_by_value ++ "'. Must be one of: "
        ++ String.intercalate ", " valid_categories))

/-- The full fate of a raw `group_by` query token on the breakdown and
issues endpoints: FastAPI enum coercion first, then the in-handler
normalization and validity check. -/
def groupByPipeline (raw : String) : Except ApiError String :=
  match GroupByCategory.fromValue raw with
  | none => .error (.unprocessable "group_by" raw)
  | some c => handlerGroupBy c

/-- C9: for every enum member — the only group_by inputs the handlers can
receive — the alias normalization is the identity and the normalized value
is in `valid_categories`, so the handlers' 400 branch is unreachable: the
handler always succeeds, returning the member's own value. -/
theorem groupBy_handler_total :
    ∀ c : GroupByCategory,
      normalized_group_by c.value = c.value ∧ handlerGroupBy c = .ok c.value := by
  intro c
  cases c <;> exact ⟨by decide, by rfl⟩

/-- C1: the endpoint does NOT accept `group_by=table_group`. The raw token
`"table_group"` is not a `GroupByCategory` member value, so FastAPI rejects
the request with a 422 validation error before the handler's alias map can
run — even though that in-handler map (which the source comments label
"for backwards compatibility") would have resolved it to
`table_groups_name`, and even though the normalized form passes the
handler's own validity check. Likewise a typo such as
`semantic_data_typo` dies at enum validation (422), never reaching the
handler's 400 `Invalid group_by` branch. -/
theorem groupBy_alias_dead_code :
    groupByPipeline "table_group" = .error (.unprocessable "group_by" "table_group")
      ∧ normalized_group_by "table_group" = "table_groups_name"
      ∧ "table_groups_name" ∈ valid_categories
      ∧ groupByPipeline "semantic_data_typo"
          = .error (.unprocessable "group_by" "semantic_data_typo") := by
  refine ⟨by rfl, by decide, by decide, by rfl⟩

/-! ## List endpoint (`list_dashboards`, lines 110-188)

The scoring engine (`ScoreDefinition.as_score_card`,
`ScoreDefinition.as_cached_score_card`) is an external collaborator: it is
passed in as an abstract `Engine`, and the handler model records every
engine score computation it invokes in a trace. The history-entry payload
type is abstract (`H`): the handler only ever copies history lists around,
never inspects entries. `format_score_card` and the pydantic response
model are out-of-scope field renamers, so the response is the raw card. -/

/-- One entry of a score card's `categories` list. -/
structure CategoryScore where
  label : String
  score : Option String
deriving DecidableEq, Repr

/-- A `ScoreDefinition` as the list handler sees it after
`ScoreDefinition.all` (an external query) returned it: identity fields,
the configured category, and the (possibly empty) loaded history. -/
structure DashDef (H : Type) where
  id : String
  project_code : String
  name : String
  category : Option String
  history : List H
deriving DecidableEq, Repr

/-- A score-card dict as produced by the engine / consumed by
`format_score_card`: the fields of `DashboardResponse`. -/
structure RawCard (H : Type) where
  id : String
  project_code : String
  name : String
  score : Option String
  cde_score : Option String
  profiling_score : Option String
  testing_score : Option String
  categories_label : Option String
  categories : List CategoryScore
  history : List H
deriving DecidableEq, Repr

/-- The external scoring engine: fresh computation (`as_score_card`) and
cached retrieval (`as_cached_score_card include_definition`). -/
structure Engine (H : Type) where
  as_score_card : DashDef H → RawCard H
  as_cached_score_card : DashDef H → Bool → RawCard H

/-- Trace entry for an engine score computation. -/
inductive EngineCall where
  | fresh (id : String)
  | cached (id : String) (include_definition : Bool)
deriving DecidableEq, Repr

/-- The per-definition body of the `include_scores or include_history`
branch of `list_dashboards` (lines 159-170): fresh card always; when
history was requested and the definition has history (Python truthiness on
the list), overwrite the fresh card's `history` with the cached card's. -/
def listItemScores {H : Type} (eng : Engine H) (include_history : Bool)
    (d : DashDef H) : RawCard H × List EngineCall :=
  let score_card := eng.as_score_card d
  if include_history && !d.history.isEmpty then
    let cached_card := eng.as_cached_score_card d false
    ({ score_card with history := cached_card.history },
      [.fresh d.id, .cached d.id false])
  else
    (score_card, [.fresh d.id])

/-- The basic-summary item (lines 174-187): all score fields `None`,
empty categories and history. -/
def summaryCard {H : Type} (d : DashDef H) : RawCard H :=
  { id := d.id
    project_code := d.project_code
    name := d.name
    score := none
    cde_score := none
    profiling_score := none
    testing_score := none
    categories_label := d.category
    categories := []
    history := [] }

/-- `list_dashboards` after `ScoreDefinition.all` returned `defs`: the
returned cards plus the trace of engine score computations. -/
def list_dashboards {H : Type} (eng : Engine H) (defs : List (DashDef H))
    (include_scores include_history : Bool) :
    List (RawCard H) × List EngineCall :=
  if include_scores || include_history then
    let items := defs.map (listItemScores eng include_history)
    (items.map Prod.fst, (items.map Prod.snd).flatten)
  else
    (defs.map summaryCard, [])

/-- C2: with `include_scores` and `include_history` both requested, the
returned list is the per-definition merge, and for a definition with
history available the merged card is the fresh card with only its
`history` field replaced by the cached card's history series — every
other field comes from the fresh computation unchanged. -/
theorem list_merge_only_history {H : Type} (eng : Engine H)
    (defs : List (DashDef H)) (d : DashDef H) (hh : d.history ≠ []) :
    (list_dashboards eng defs true true).1
        = defs.map (fun x => (listItemScores eng true x).1)
      ∧ (listItemScores eng true d).1
          = { eng.as_score_card d with
                history := (eng.as_cached_score_card d false).history }
      ∧ ((listItemScores eng true d).1.score = (eng.as_score_card d).score
          ∧ (listItemScores eng true d).1.cde_score = (eng.as_score_card d).cde_score
          ∧ (listItemScores eng true d).1.profiling_score
              = (eng.as_score_card d).profiling_score
          ∧ (listItemScores eng true d).1.testing_score
              = (eng.as_score_card d).testing_score
          ∧ (listItemScores eng true d).1.categories
              = (eng.as_score_card d).categories
          ∧ (listItemScores eng true d).1.history
              = (eng.as_cached_score_card d false).history) := by
  have hne : d.history.isEmpty = false := by
    cases h : d.history with
    | nil => exact absurd h hh
    | cons a l => rfl
  refine ⟨by simp [list_dashboards], ?_, ?_⟩
  · simp [listItemScores, hne]
  · simp [listItemScores, hne]

/-- Witness for C2 at a concrete engine and definition with history. -/
theorem list_merge_only_history_witness :
    ([(0 : Nat)] ≠ ([] : List Nat))
      ∧ (list_dashboards
            (H := Nat)
            ⟨fun d => ⟨d.id, d.project_code, d.name, some "91", none, some "90",
                        some "92", d.category, [⟨"demo", some "91"⟩], []⟩,
             fun d _ => ⟨d.id, d.project_code, d.name, some "80", none, none,
                          none, none, [], [7, 8]⟩⟩
            [⟨"a1", "DEFAULT", "dash", some "dq_dimension", [0]⟩] true true).1
          = [⟨"a1", "DEFAULT", "dash", some "91", none, some "90", some "92",
              some "dq_dimension", [⟨"demo", some "91"⟩], [7, 8]⟩] := by
  have h := list_merge_only_history
    (H := Nat)
    ⟨fun d => ⟨d.id, d.project_code, d.name, some "91", none, some "90",
                some "92", d.category, [⟨"demo", some "91"⟩], []⟩,
     fun d _ => ⟨d.id, d.project_code, d.name, some "80", none, none,
                  none, none, [], [7, 8]⟩⟩
    [⟨"a1", "DEFAULT", "dash", some "dq_dimension", [0]⟩]
    ⟨"a1", "DEFAULT", "dash", some "dq_dimension", [0]⟩
    (by decide)
  exact ⟨by decide, by rw [h.1]; rfl⟩

/-- C5: with `include_scores` and `include_history` both false, no engine
score computation (fresh or cached) is invoked for any definition, and
every returned item has `score`, `cde_score`, `profiling_score`,
`testing_score` equal to `None` and empty `categories` and `history`. -/
theorem list_summary_no_engine {H : Type} (eng : Engine H)
    (defs : List (DashDef H)) :
    (list_dashboards eng defs false false).2 = []
      ∧ ∀ c ∈ (list_dashboards eng defs false false).1,
          c.score = none ∧ c.cde_score = none ∧ c.profiling_score = none
            ∧ c.testing_score = none ∧ c.categories = [] ∧ c.history = [] := by
  refine ⟨by simp [list_dashboards], ?_⟩
  intro c hc
  simp only [list_dashboards, Bool.or_self, Bool.false_eq_true, if_false,
    List.mem_map] at hc
  obtain ⟨d, _, rfl⟩ := hc
  exact ⟨rfl, rfl, rfl, rfl, rfl, rfl⟩

/-- Witness for C5 at a concrete engine and definition list. -/
theorem list_summary_no_engine_witness :
    (list_dashboards
        (H := Nat)
        ⟨fun d => ⟨d.id, d.project_code, d.name, some "91", none, none, none,
                    none, [], []⟩,
         fun d _ => ⟨d.id, d.project_code, d.name, some "80", none, none,
                      none, none, [], [7]⟩⟩
        [⟨"a1", "DEFAULT", "dash", none, [0]⟩] false false).2 = []
      ∧ (list_dashboards
            (H := Nat)
            ⟨fun d => ⟨d.id, d.project_code, d.name, some "91", none, none,
                        none, none, [], []⟩,
             fun d _ => ⟨d.id, d.project_code, d.name, some "80", none, none,
                          none, none, [], [7]⟩⟩
            [⟨"a1", "DEFAULT", "dash", none, [0]⟩] false false).1
          = [⟨"a1", "DEFAULT", "dash", none, none, none, none, none, [], []⟩] := by
  have h := list_summary_no_engine
    (H := Nat)
    ⟨fun d => ⟨d.id, d.project_code, d.name, some "91", none, none, none,
                none, [], []⟩,
     fun d _ => ⟨d.id, d.project_code, d.name, some "80", none, none, none,
                  none, [], [7]⟩⟩
    [⟨"a1", "DEFAULT", "dash", none, [0]⟩]
  exact ⟨h.1, by rfl⟩

/-! ## Update endpoint (`update_dashboard`, lines 358-409)

`ScoreDefinitionCriteria.from_filters` belongs to the external scoring
engine, so the criteria representation is an abstract type `C` and the
builder an abstract function. The pydantic request model
`DashboardUpdate` has every field optional (`None` means "leave as is",
except `filters`, which replaces criteria whenever present). -/

/-- `DashboardFilterCreate`: one filter condition from the request body.
`others` is a list of `{field: value}` string dicts (linked filters). -/
structure DashboardFilterCreate where
  field : String
  value : String
  others : List (List (String × String))
deriving DecidableEq, Repr

/-- The dict literal `{"field": f.field, "value": f.value, "others": f.others}`
built for each filter before handing the list to `from_filters`. -/
structure FilterData where
  field : String
  value : String
  others : List (List (String × String))
deriving DecidableEq, Repr

/-- The `filters_data` comprehension (lines 389-396). -/
def filters_data (fs : List DashboardFilterCreate) : List FilterData :=
  fs.map fun f => ⟨f.field, f.value, f.others⟩

/-- The mutable `ScoreDefinition` fields the update handler touches,
over an abstract engine criteria type `C`. -/
structure ScoreDef (C : Type) where
  id : String
  project_code : String
  name : String
  total_score : Bool
  cde_score : Bool
  category : Option String
  criteria : C
deriving DecidableEq, Repr

/-- The `DashboardUpdate` request body: every field optional. -/
structure DashboardUpdate where
  name : Option String
  total_score : Option Bool
  cde_score : Option Bool
  category : Option String
  filters : Option (List DashboardFilterCreate)
  group_by_field : Option Bool
deriving DecidableEq, Repr

/-- The field-update portion of `update_dashboard` (lines 377-400): each
`is not None` guard copies the supplied value; a present `filters` list
(even empty) rebuilds `criteria` via `from_filters`, with
`group_by_field` defaulting to `True` when absent from the body. The
subsequent `save` / cached-card response steps are external and do not
touch these fields. -/
def update_dashboard {C : Type} (from_filters : List FilterData → Bool → C)
    (dashboard : ScoreDef C) (updates : DashboardUpdate) : ScoreDef C :=
  let dashboard := match updates.name with
    | some n => { dashboard with name := n }
    | none => dashboard
  let dashboard := match updates.total_score with
    | some b => { dashboard with total_score := b }
    | none => dashboard
  let dashboard := match updates.cde_score with
    | some b => { dashboard with cde_score := b }
    | none => dashboard
  let dashboard := match updates.category with
    | some c => { dashboard with category := some c }
    | none => dashboard
  match updates.filters with
  | some fs =>
      { dashboard with
          criteria := from_filters (filters_data fs)
            (match updates.group_by_field with
              | some b => b
              | none => true) }
  | none => dashboard

/-- C3: whenever the body carries a `filters` value (including `[]`), the
resulting criteria is rebuilt by `from_filters` from exactly those
filters, with the body's `group_by_field` when present and `true` when
absent. -/
theorem update_replaces_criteria {C : Type}
    (from_filters : List FilterData → Bool → C) (dashboard : ScoreDef C)
    (updates : DashboardUpdate) (fs : List DashboardFilterCreate)
    (hf : updates.filters = some fs) :
    (update_dashboard from_filters dashboard updates).criteria
        = from_filters (filters_data fs)
            (match updates.group_by_field with
              | some b => b
              | none => true)
      ∧ (updates.group_by_field = none →
          (update_dashboard from_filters dashboard updates).criteria
            = from_filters (filters_data fs) true) := by
  constructor
  · simp only [update_dashboard, hf]
  · intro hg
    simp only [update_dashboard, hf, hg]

/-- Witness for C3: empty filter list, absent `group_by_field`, other
fields present. -/
theorem update_replaces_criteria_witness :
    ((⟨some "n2", some false, none, some "data_product", some [], none⟩ :
        DashboardUpdate).filters = some [])
      ∧ (update_dashboard (C := List FilterData × Bool) (fun fs g => (fs, g))
            ⟨"a1", "DEFAULT", "dash", true, true, none, ([⟨"f", "v", []⟩], false)⟩
            ⟨some "n2", some false, none, some "data_product", some [], none⟩).criteria
          = ([], true) := by
  have h := update_replaces_criteria (C := List FilterData × Bool)
    (fun fs g => (fs, g))
    ⟨"a1", "DEFAULT", "dash", true, true, none, ([⟨"f", "v", []⟩], false)⟩
    ⟨some "n2", some false, none, some "data_product", some [], none⟩
    [] (by rfl)
  exact ⟨rfl, h.2 rfl⟩

/-- C4: when the body omits `filters`, the dashboard's criteria after the
call equals its criteria before the call, whatever the other supplied
fields do. -/
theorem update_keeps_criteria {C : Type}
    (from_filters : List FilterData → Bool → C) (dashboard : ScoreDef C)
    (updates : DashboardUpdate) (hf : updates.filters = none) :
    (update_dashboard from_filters dashboard updates).criteria
      = dashboard.criteria := by
  simp only [update_dashboard, hf]
  cases updates.name <;> cases updates.total_score <;> cases updates.cde_score
    <;> cases updates.category <;> rfl

/-- Witness for C4: every other field supplied and changed, criteria
untouched. -/
theorem update_keeps_criteria_witness :
    ((⟨some "n2", some false, some true, some "data_product", none, some false⟩ :
        DashboardUpdate).filters = none)
      ∧ (update_dashboard (C := List FilterData × Bool) (fun fs g => (fs, g))
            ⟨"a1", "DEFAULT", "dash", true, true, none, ([⟨"f", "v", []⟩], false)⟩
            ⟨some "n2", some false, some true, some "data_product", none,
              some false⟩).criteria
          = ([⟨"f", "v", []⟩], false) := by
  have h := update_keeps_criteria (C := List FilterData × Bool)
    (fun fs g => (fs, g))
    ⟨"a1", "DEFAULT", "dash", true, true, none, ([⟨"f", "v", []⟩], false)⟩
    ⟨some "n2", some false, some true, some "data_product", none, some false⟩
    (by rfl)
  exact ⟨rfl, h⟩

/-! ## Filter-value grouping (`get_filter_field_values`, lines 463-514)

The union query itself runs in the database (`fetch_all_from_db`, out of
scope); its result is a list of rows, each carrying a `category` and a
`value` column. Both are modelled as `Option String` so that the Python
truthiness test `if row.category and row.value` (skip `None` **and** the
empty string — stricter than the query's `value IS NOT NULL`) is faithfully
expressible. The `defaultdict(list)` accumulation is an insertion-ordered
association list, as a Python dict is. -/

/-- One row of the pivoted category/value union query. -/
structure ValueRow where
  category : Option String
  value : Option String
deriving DecidableEq, Repr

/-- `values[k].append(v)` on a `defaultdict(list)` represented as an
insertion-ordered association list: extend the existing entry for `k`, or
create it at the end. -/
def appendGroup (m : List (String × List String)) (k v : String) :
    List (String × List String) :=
  match m with
  | [] => [(k, [v])]
  | (k', vs) :: rest =>
      if k' = k then (k', vs ++ [v]) :: rest else (k', vs) :: appendGroup rest k v

/-- The loop body: `if row.category and row.value:
values[row.category].append(row.value)`. Python truthiness on an optional
string means present and non-empty. -/
def rowStep (m : List (String × List String)) (row : ValueRow) :
    List (String × List String) :=
  match row.category, row.value with
  | some c, some v => if c ≠ "" ∧ v ≠ "" then appendGroup m c v else m
  | _, _ => m

/-- The grouping loop of `get_filter_field_values`: fold the query rows
into the `defaultdict(list)` mapping. -/
def group_category_values (rows : List ValueRow) : List (String × List String) :=
  rows.foldl rowStep []

/-- Python dict lookup on the association-list representation. -/
def lookupGroup (k : String) : List (String × List String) → Option (List String)
  | [] => none
  | (k', vs) :: rest => if k' = k then some vs else lookupGroup k rest

/-- Specification-side characterization: the values of the rows that the
loop keeps for category `k` (category equal to `k`, both category and
value present and non-empty), in query result order. -/
def keptValues (rows : List ValueRow) (k : String) : List String :=
  rows.filterMap fun row =>
    match row.category, row.value with
    | some c, some v => if c = k ∧ c ≠ "" ∧ v ≠ "" then some v else none
    | _, _ => none

theorem lookupGroup_appendGroup_same (m : List (String × List String))
    (k v : String) :
    lookupGroup k (appendGroup m k v)
      = some ((lookupGroup k m).getD [] ++ [v]) := by
  induction m with
  | nil => simp [appendGroup, lookupGroup]
  | cons p rest ih =>
      obtain ⟨k', vs⟩ := p
      by_cases h : k' = k
      · subst h
        simp [appendGroup, lookupGroup]
      · simp [appendGroup, lookupGroup, h, ih]

theorem lookupGroup_appendGroup_other (m : List (String × List String))
    (k k' v : String) (h : k' ≠ k) :
    lookupGroup k' (appendGroup m k v) = lookupGroup k' m := by
  induction m with
  | nil =>
      have hne : ¬k = k' := fun he => h he.symm
      simp only [appendGroup, lookupGroup, if_neg hne]
  | cons p rest ih =>
      obtain ⟨k'', vs⟩ := p
      by_cases hk : k'' = k
      · have hne : ¬k'' = k' := by rw [hk]; exact fun he => h he.symm
        simp only [appendGroup, if_pos hk, lookupGroup, if_neg hne]
      · simp only [appendGroup, if_neg hk, lookupGroup]
        by_cases hk' : k'' = k'
        · simp only [if_pos hk']
        · simp only [if_neg hk', ih]

theorem lookupGroup_eq_none_iff (m : List (String × List String)) (k : String) :
    lookupGroup k m = none ↔ k ∉ m.map Prod.fst := by
  induction m with
  | nil => simp [lookupGroup]
  | cons p rest ih =>
      obtain ⟨k', vs⟩ := p
      by_cases h : k' = k
      · subst h
        simp [lookupGroup]
      · simp [lookupGroup, h, ih, Ne.symm h]

theorem foldl_rowStep_lookup (rows : List ValueRow) :
    ∀ (m : List (String × List String)) (k : String),
      lookupGroup k (List.foldl rowStep m rows)
        = if keptValues rows k = [] then lookupGroup k m
          else some ((lookupGroup k m).getD [] ++ keptValues rows k) := by
  induction rows with
  | nil => intro m k; simp [keptValues]
  | cons r rest ih =>
      intro m k
      rw [List.foldl_cons]
      rcases hc : r.category with _ | c
      · have hstep : rowStep m r = m := by simp [rowStep, hc]
        have hkept : keptValues (r :: rest) k = keptValues rest k := by
          simp [keptValues, hc]
        rw [hstep, hkept, ih]
      · rcases hv : r.value with _ | v
        · have hstep : rowStep m r = m := by simp [rowStep, hc, hv]
          have hkept : keptValues (r :: rest) k = keptValues rest k := by
            simp [keptValues, hc, hv]
          rw [hstep, hkept, ih]
        · by_cases hne : c ≠ "" ∧ v ≠ ""
          · have hstep : rowStep m r = appendGroup m c v := by
              simp [rowStep, hc, hv, hne]
            by_cases hck : c = k
            · have hstep2 : rowStep m r = appendGroup m k v := by rw [hstep, hck]
              have hkept : keptValues (r :: rest) k = v :: keptValues rest k := by
                simp only [keptValues, List.filterMap_cons, hc, hv]
                rw [if_pos ⟨hck, hne⟩]
              rw [hstep2, hkept, ih, lookupGroup_appendGroup_same]
              by_cases hk : keptValues rest k = []
              · simp [hk]
              · simp [hk, List.append_assoc]
            · have hkept : keptValues (r :: rest) k = keptValues rest k := by
                simp only [keptValues, List.filterMap_cons, hc, hv]
                rw [if_neg (fun hand => hck hand.1)]
              rw [hstep, hkept, ih,
                lookupGroup_appendGroup_other m c k v (fun h => hck h.symm)]
          · have hstep : rowStep m r = m := by
              simp only [rowStep, hc, hv, if_neg hne]
            have hkept : keptValues (r :: rest) k = keptValues rest k := by
              have : ¬(c = k ∧ c ≠ "" ∧ v ≠ "") := fun h => hne h.2
              simp only [keptValues, List.filterMap_cons, hc, hv, if_neg this]
            rw [hstep, hkept, ih]

/-- C10: the grouping loop keeps exactly the rows whose category and value
are both present and non-empty (stricter than the query's `IS NOT NULL`
filter): looking up any category `k` in the returned mapping yields
precisely the kept values for `k` in query result order, and `k` is a key
of the mapping exactly when at least one non-empty value was observed for
a non-empty category `k`. -/
theorem filter_values_grouping (rows : List ValueRow) (k : String) :
    (lookupGroup k (group_category_values rows)
        = if keptValues rows k = [] then none else some (keptValues rows k))
      ∧ (k ∈ (group_category_values rows).map Prod.fst
          ↔ keptValues rows k ≠ []) := by
  have h := foldl_rowStep_lookup rows ([]) k
  have hbase : lookupGroup k ([] : List (String × List String)) = none := rfl
  rw [hbase] at h
  constructor
  · rw [group_category_values, h]
    by_cases hk : keptValues rows k = [] <;> simp [hk]
  · rw [← not_iff_not, not_not, ← lookupGroup_eq_none_iff, group_category_values, h]
    by_cases hk : keptValues rows k = [] <;> simp [hk]

/-! ## Filter-options endpoint (`get_dashboard_filter_options`, lines 544-660)

The database is modelled as the data the two queries would return plus the
set of existing project codes; the handler records every dynamic query it
issues in a trace. `validate_project_code` (`src/dependencies.py`,
lines 38-54) raises `NotFound` for an unknown project. -/

/-- One `{"field": ..., "label": ...}` entry of `filter_fields_metadata`. -/
structure FieldLabel where
  field : String
  label : String
deriving DecidableEq, Repr

/-- One `{"value": ..., "label": ...}` option entry. -/
structure ValueLabel where
  value : String
  label : String
deriving DecidableEq, Repr

/-- One row of the column-hierarchy join query
(`src/schemas/filter_options.py`). -/
structure ColumnHierarchy where
  column_id : String
  column_name : String
  table_id : String
  table_name : String
  table_group_id : String
  table_group_name : String
deriving DecidableEq, Repr

/-- The `FilterOptions` response model: six collections. -/
structure FilterOptions where
  filter_fields_metadata : List FieldLabel
  filter_values : List (String × List String)
  columns : List ColumnHierarchy
  category_options : List ValueLabel
  score_grouping_options : List ValueLabel
  score_type_options : List ValueLabel
deriving DecidableEq, Repr

/-- The database as the endpoint sees it: existing project codes, the rows
the pivoted filter-value union query would return, and the rows the
column-hierarchy query would return. -/
structure Db where
  projects : List String
  valueRows : List ValueRow
  columnRows : List ColumnHierarchy

/-- Trace entry for a dynamic database query issued by the endpoint. -/
inductive QueryCall where
  | filterValueQuery (project_code : String)
  | columnQuery (project_code : String)
deriving DecidableEq, Repr

/-- `validate_project_code` (`src/dependencies.py`): 404 when the project
code matches no `Project` row. -/
def validate_project_code (db : Db) (project_code : String) :
    Except ApiError Unit :=
  if project_code ∈ db.projects then .ok ()
  else .error (.notFound ("Project '" ++ project_code ++ "' not found"))

/-- `get_filter_field_values`: issue the union query, then group its rows
(the grouping loop is `group_category_values`). -/
def get_filter_field_values (db : Db) (project_code : String) :
    List (String × List String) × List QueryCall :=
  (group_category_values db.valueRows, [.filterValueQuery project_code])

/-- `get_column_hierarchy`: issue the join query and return its rows. -/
def get_column_hierarchy (db : Db) (project_code : String) :
    List ColumnHierarchy × List QueryCall :=
  (db.columnRows, [.columnQuery project_code])

/-- The hand-maintained `filter_fields_metadata` list (lines 593-603). -/
def filter_fields_metadata_static : List FieldLabel :=
  [⟨"table_groups_name", "Table Group"⟩,
   ⟨"data_location", "Data Location"⟩,
   ⟨"data_source", "Data Source"⟩,
   ⟨"source_system", "Source System"⟩,
   ⟨"source_process", "Source Process"⟩,
   ⟨"business_domain", "Business Domain"⟩,
   ⟨"stakeholder_group", "Stakeholder Group"⟩,
   ⟨"transform_level", "Transform Level"⟩,
   ⟨"data_product", "Data Product"⟩]

/-- The hand-maintained `category_options` list (lines 615-626). -/
def category_options_static : List ValueLabel :=
  [⟨"table_groups_name", "Table Group"⟩,
   ⟨"data_location", "Data Location"⟩,
   ⟨"data_source", "Data Source"⟩,
   ⟨"source_system", "Source System"⟩,
   ⟨"source_process", "Source Process"⟩,
   ⟨"business_domain", "Business Domain"⟩,
   ⟨"stakeholder_group", "Stakeholder Group"⟩,
   ⟨"transform_level", "Transform Level"⟩,
   ⟨"dq_dimension", "Quality Dimension"⟩,
   ⟨"data_product", "Data Product"⟩]

/-- The hand-maintained `score_grouping_options` list (lines 630-644). -/
def score_grouping_options_static : List ValueLabel :=
  [⟨"column_name", "Column"⟩,
   ⟨"table_name", "Table"⟩,
   ⟨"dq_dimension", "Quality Dimension"⟩,
   ⟨"semantic_data_type", "Semantic Data Type"⟩,
   ⟨"table_groups_name", "Table Group"⟩,
   ⟨"data_location", "Data Location"⟩,
   ⟨"data_source", "Data Source"⟩,
   ⟨"source_system", "Source System"⟩,
   ⟨"source_process", "Source Process"⟩,
   ⟨"business_domain", "Business Domain"⟩,
   ⟨"stakeholder_group", "Stakeholder Group"⟩,
   ⟨"transform_level", "Transform Level"⟩,
   ⟨"data_product", "Data Product"⟩]

/-- The hand-maintained `score_type_options` list (lines 648-651). -/
def score_type_options_static : List ValueLabel :=
  [⟨"score", "Total Score"⟩, ⟨"cde_score", "CDE Score"⟩]

/-- `get_dashboard_filter_options`: validate the project first; then build
each of the six collections, each gated by its flag (`filter_fields_metadata`
and `filter_values` both by `include_filter_values`), issuing dynamic
queries only for the requested pieces. The returned trace lists the
dynamic queries actually issued. -/
def get_dashboard_filter_options (db : Db) (project_code : String)
    (include_filter_values include_columns include_category_options
      include_score_grouping_options include_score_type_options : Bool) :
    Except ApiError FilterOptions × List QueryCall :=
  match validate_project_code db project_code with
  | .error e => (.error e, [])
  | .ok () =>
      let filter_fields_metadata :=
        if include_filter_values then filter_fields_metadata_static else []
      let fv :=
        if include_filter_values then get_filter_field_values db project_code
        else ([], [])
      let cols :=
        if include_columns then get_column_hierarchy db project_code
        else ([], [])
      let category_options :=
        if include_category_options then category_options_static else []
      let score_grouping_options :=
        if include_score_grouping_options then score_grouping_options_static else []
      let score_type_options :=
        if include_score_type_options then score_type_options_static else []
      (.ok
        { filter_fields_metadata := filter_fields_metadata
          filter_values := fv.1
          columns := cols.1
          category_options := category_options
          score_grouping_options := score_grouping_options
          score_type_options := score_type_options },
        fv.2 ++ cols.2)

/-- C6: naming a project that does not exist fails the whole call with
`NotFound` before any filter-value or column query executes — the trace is
empty and no partial `FilterOptions` value is produced. -/
theorem filter_options_unknown_project (db : Db) (project_code : String)
    (f1 f2 f3 f4 f5 : Bool) (h : project_code ∉ db.projects) :
    get_dashboard_filter_options db project_code f1 f2 f3 f4 f5
      = (.error (.notFound ("Project '" ++ project_code ++ "' not found")), []) := by
  simp only [get_dashboard_filter_options, validate_project_code, if_neg h]

/-- Witness for C6 on a concrete database with one project. -/
theorem filter_options_unknown_project_witness :
    ("MISSING" ∉ (⟨["DEFAULT"], [], []⟩ : Db).projects)
      ∧ get_dashboard_filter_options ⟨["DEFAULT"], [], []⟩ "MISSING"
          true true true true true
        = (.error (.notFound "Project 'MISSING' not found"), []) := by
  refine ⟨by decide, ?_⟩
  have h := filter_options_unknown_project ⟨["DEFAULT"], [], []⟩ "MISSING"
    true true true true true (by decide)
  exact h

/-- C7: on an existing project, with all five include flags false the
response is OK with all six collections empty and no query issued; and in
general each collection is gated only by its own flag, with
`filter_fields_metadata` and `filter_values` both gated by the single
`include_filter_values` flag. -/
theorem filter_options_flag_gating (db : Db) (project_code : String)
    (h : project_code ∈ db.projects) :
    get_dashboard_filter_options db project_code false false false false false
        = (.ok ⟨[], [], [], [], [], []⟩, [])
      ∧ ∀ f1 f2 f3 f4 f5 : Bool,
          get_dashboard_filter_options db project_code f1 f2 f3 f4 f5
            = (.ok
                ⟨if f1 then filter_fields_metadata_static else [],
                 if f1 then group_category_values db.valueRows else [],
                 if f2 then db.columnRows else [],
                 if f3 then category_options_static else [],
                 if f4 then score_grouping_options_static else [],
                 if f5 then score_type_options_static else []⟩,
              (if f1 then [.filterValueQuery project_code] else [])
                ++ (if f2 then [.columnQuery project_code] else [])) := by
  constructor
  · simp [get_dashboard_filter_options, validate_project_code, if_pos h]
  · intro f1 f2 f3 f4 f5
    simp only [get_dashboard_filter_options, validate_project_code, if_pos h,
      get_filter_field_values, get_column_hierarchy]
    cases f1 <;> cases f2 <;> rfl

/-- Witness for C7 on a concrete database with one project. -/
theorem filter_options_flag_gating_witness :
    ("DEFAULT" ∈ (⟨["DEFAULT"], [], [⟨"c", "col", "t", "tab", "g", "grp"⟩]⟩ :
          Db).projects)
      ∧ get_dashboard_filter_options
          ⟨["DEFAULT"], [], [⟨"c", "col", "t", "tab", "g", "grp"⟩]⟩ "DEFAULT"
          false false false false false
        = (.ok ⟨[], [], [], [], [], []⟩, [])
      ∧ get_dashboard_filter_options
          ⟨["DEFAULT"], [], [⟨"c", "col", "t", "tab", "g", "grp"⟩]⟩ "DEFAULT"
          false true false false true
        = (.ok ⟨[], [], [⟨"c", "col", "t", "tab", "g", "grp"⟩], [], [],
                score_type_options_static⟩,
            [.columnQuery "DEFAULT"]) := by
  have h := filter_options_flag_gating
    ⟨["DEFAULT"], [], [⟨"c", "col", "t", "tab", "g", "grp"⟩]⟩ "DEFAULT"
    (by decide)
  refine ⟨by decide, h.1, ?_⟩
  rw [h.2 false true false false true]
  rfl

/-- C8: the hand-maintained grouping-option values are exactly the
13-entry canonical category vocabulary, one-for-one and in order, and the
category-option values are exactly that vocabulary minus `column_name`,
`table_name` and `semantic_data_type`. -/
theorem static_options_match_vocabulary :
    score_grouping_options_static.map (fun o => o.value) = valid_categories
      ∧ valid_categories = GroupByCategory.members.map (fun c => c.value)
      ∧ List.Perm (category_options_static.map (fun o => o.value))
          (valid_categories.filter
            (fun v => v ∉ ["column_name", "table_name", "semantic_data_type"]))
      ∧ valid_categories.length = 13 := by
  refine ⟨by rfl, by rfl, by decide, by rfl⟩

end TestgenRestify
